import Mathlib

/-!
Shallow embedding of the hass-heaty scheduling core
(src/hass_heaty/{expr,util,schedule,app,config}.py) and proofs about it.

Conventions of the embedding:
* Python floats are modelled as rationals (`ℚ`); `float()` applied to a
  string is modelled by `pyFloatOfString`, a parser for finite decimal
  literals (sign, digits, optional fractional part).  Special forms such
  as `inf`/`nan`/exponents are outside the fragment the schedules use.
* Python `datetime.time` values are minutes since midnight, `datetime.date`
  values are day numbers (`ℤ`), and `datetime.datetime` values are minutes
  since the epoch, i.e. `day * 1440 + timeOfDay`; comparison of datetimes
  is the integer order, exactly mirroring Python's lexicographic
  (date, time) order.
* `dict.pop` / `dict.get` on the per-room tables of the `Heaty` app object
  are modelled by boolean / optional-valued functions from room names.
-/

namespace HassHeaty

/-- Characters Python's `str.split()` / `str.strip()` treat as whitespace
(ASCII fragment). -/
def pySpace (c : Char) : Bool :=
  c = ' ' ∨ c = '\t' ∨ c = '\n' ∨ c = '\r' ∨ c = Char.ofNat 11 ∨ c = Char.ofNat 12

/-- `"".join(s.split())`: removal of all whitespace from a string. -/
def removeWhitespace (s : String) : String :=
  ⟨s.data.filter (fun c => ¬ pySpace c)⟩

/-- Python `s.strip()`: removal of leading and trailing whitespace. -/
def pyStrip (s : String) : String :=
  ⟨(s.data.dropWhile pySpace).reverse.dropWhile pySpace |>.reverse⟩

/-- Python `s.lower()` (ASCII fragment): lowercase every character. -/
def pyLower (s : String) : String :=
  ⟨s.data.map Char.toLower⟩

/-- Value of a run of decimal digits. -/
def natOfDigits (cs : List Char) : ℕ :=
  cs.foldl (fun n c => 10 * n + (c.toNat - 48)) 0

/-- Unsigned decimal literal: `digits`, `digits.digits`, `digits.` or
`.digits` (at least one digit overall). -/
def parseUnsignedDecimal (cs : List Char) : Option ℚ :=
  let intPart := cs.takeWhile Char.isDigit
  let rest := cs.dropWhile Char.isDigit
  match rest with
  | [] =>
      if intPart.isEmpty then none
      else some (natOfDigits intPart)
  | '.' :: frac =>
      if frac.all Char.isDigit ∧ ¬ (intPart.isEmpty ∧ frac.isEmpty) then
        some ((natOfDigits intPart : ℚ)
          + (natOfDigits frac : ℚ) / ((10 : ℚ) ^ frac.length))
      else none
  | _ => none

/-- Model of Python's `float()` on strings, restricted to finite decimal
literals with an optional sign. -/
def pyFloatOfString (s : String) : Option ℚ :=
  match s.data with
  | '+' :: cs => parseUnsignedDecimal cs
  | '-' :: cs => (parseUnsignedDecimal cs).map Neg.neg
  | cs => parseUnsignedDecimal cs

/-- Temperature values handled by `util.parse_temp`: the string `"off"`
or a float. -/
inductive UtilTemp
  | off
  | num (q : ℚ)
  deriving DecidableEq, Repr

/-- Python truthiness of a `util.parse_temp` result: the string `"off"` is
truthy, a float is truthy iff it is nonzero. -/
def UtilTemp.truthy : UtilTemp → Bool
  | .off => true
  | .num q => q ≠ 0

/-- `util.parse_temp` on a string argument: the `"off"` test is performed
on the *unstripped* lowercased string; otherwise the string is stripped
and given to `float()`, with `None` on failure. -/
def util.parse_temp (s : String) : Option UtilTemp :=
  if pyLower s = "off" then some .off
  else (pyFloatOfString (pyStrip s)).map .num

/-- Values a temperature expression can evaluate to under `eval`:
a string, a float, or some other object (e.g. an `expr.Break` instance or
`None`), which `float()` rejects with a `TypeError`. -/
inductive PyVal
  | str (s : String)
  | num (q : ℚ)
  | obj
  deriving DecidableEq, Repr

/-- `util.parse_temp` on the value returned by `eval`: strings go through
the string branch, floats through `float()` (identity), any other object
raises `TypeError` inside `float()`, giving `None`. -/
def util.parse_temp_val : PyVal → Option UtilTemp
  | .str s => util.parse_temp s
  | .num q => some (.num q)
  | .obj => none

/-- `temp == util.TEMP_EXPR_IGNORE`: equality with the string `"ignore"`.
Only a string can compare equal; `ResultBase.__eq__` returns `False`
against a string. -/
def PyVal.isIgnore : PyVal → Bool
  | .str s => s = "ignore"
  | _ => false

/-- A rule's `temp_expr` as `Heaty.eval_temp_expr` receives it, recorded by
its two observable behaviours: `parsed` is `util.parse_temp(temp_expr)`
(the value for a literal, `None` for a compiled expression), and
`evalResult` is what `eval(temp_expr, env)` does in the environment built
by `util.build_time_expression_env` plus `Heaty.eval_temp_expr`'s
`extra_env` — either a value or an exception (`NameError`, `TypeError`,
...). -/
structure Expr where
  parsed : Option UtilTemp
  evalResult : Except Unit PyVal
  deriving Repr

/-- Successful results of `util.eval_temp_expr`: the string
`util.TEMP_EXPR_IGNORE` or a temperature. -/
inductive EvalOut
  | ignore
  | temp (t : UtilTemp)
  deriving DecidableEq, Repr

/-- The dynamic-evaluation part of `util.eval_temp_expr`, reached when
`parse_temp(temp_expr)` is falsy: run `eval` (propagating its exception),
pass `"ignore"` through, re-parse the result and raise `ValueError` when
the re-parse is `None` or falsy. -/
def util.eval_dynamic (e : Expr) : Except Unit EvalOut :=
  match e.evalResult with
  | .error _ => .error ()
  | .ok v =>
      if v.isIgnore then .ok .ignore
      else
        match util.parse_temp_val v with
        | some p => if p.truthy then .ok (.temp p) else .error ()
        | none => .error ()

/-- `util.eval_temp_expr`: return the parsed literal if truthy, otherwise
fall through to dynamic evaluation. -/
def util.eval_temp_expr (e : Expr) : Except Unit EvalOut :=
  match e.parsed with
  | some p =>
      if p.truthy then .ok (.temp p)
      else util.eval_dynamic e
  | none => util.eval_dynamic e

/-- `Heaty.eval_temp_expr`: wraps `util.eval_temp_expr` and turns any
exception into `None`. -/
def Heaty.eval_temp_expr (e : Expr) : Option EvalOut :=
  match util.eval_temp_expr e with
  | .ok r => some r
  | .error _ => none

/-- The loop of `Heaty.get_scheduled_temp`, parameterised over the
sequence of matching rules' `temp_expr`s (app.py obtains it from
`Schedule.get_matching_rules`, a method the `Schedule` class in
schedule.py does not define): evaluate each expression, skip it when the
result is `None` or `"ignore"`, and return the first temperature;
`None` when the rules are exhausted. -/
def Heaty.get_scheduled_temp : List Expr → Option UtilTemp
  | [] => none
  | e :: rest =>
      match Heaty.eval_temp_expr e with
      | none => Heaty.get_scheduled_temp rest
      | some .ignore => Heaty.get_scheduled_temp rest
      | some (.temp t) => some t

/-- `expr.Temp`: a validated temperature value, either the string `"off"`
or a float (modelled as `ℚ`). -/
inductive TempVal
  | off
  | numeric (q : ℚ)
  deriving DecidableEq, Repr

/-- `expr.Temp.is_off`. -/
def TempVal.is_off : TempVal → Bool
  | .off => true
  | .numeric _ => false

/-- `expr.Temp.__add__` on two `Temp` operands (the `type(self) is
type(other)` check passes): `"off"` on either side absorbs, otherwise the
float values are added. -/
def TempVal.add (a b : TempVal) : TempVal :=
  if a.is_off ∨ b.is_off then .off
  else
    match a, b with
    | .numeric x, .numeric y => .numeric (x + y)
    | _, _ => .off

/-- `expr.Temp.parse_temp` on a string: all whitespace is removed first,
then the case-insensitive `"off"` test, then `float()` on the
whitespace-free string. -/
def Temp.parse_temp (s : String) : Option TempVal :=
  let v := removeWhitespace s
  if pyLower v = "off" then some .off
  else (pyFloatOfString v).map .numeric

/-- The calendar components of a `datetime.date` that
`Rule.check_constraints` reads: `date.year`, `date.month`, `date.day` and
the `date.isocalendar()` triple. -/
structure DateParts where
  year : ℤ
  month : ℤ
  day : ℤ
  isoYear : ℤ
  isoWeek : ℤ
  isoWeekday : ℤ
  deriving DecidableEq, Repr

/-- One iteration of the loop in `Rule.check_constraints` for a constraint
with a non-`None` allowed set; the five tests mirror the source, including
that `"years"` compares the ISO year (`date.isocalendar()[0]`) and that
`"months"` compares `date.year`. -/
def constraintOk (d : DateParts) (name : String) (allowed : List ℤ) : Bool :=
  if name = "years" ∧ d.isoYear ∉ allowed then false
  else if name = "months" ∧ d.year ∉ allowed then false
  else if name = "days" ∧ d.day ∉ allowed then false
  else if name = "week" ∧ d.isoWeek ∉ allowed then false
  else if name = "weekday" ∧ d.isoWeekday ∉ allowed then false
  else true

/-- `Rule.check_constraints`: every constraint whose allowed set is not
`None` must pass `constraintOk`; `None`-valued constraints are skipped. -/
def Rule.check_constraints (constraints : List (String × Option (List ℤ)))
    (d : DateParts) : Bool :=
  constraints.all fun c =>
    match c.2 with
    | none => true
    | some allowed => constraintOk d c.1 allowed

/-- `schedule.Rule` as `Schedule._build_slots` consumes it: `start_time`
and `end_time` are minutes since midnight (`start_time` defaults to
midnight when the constructor receives `None`); the constructor accepts no
`end_plus_days` parameter.  The temperature expression is carried along
unevaluated. -/
structure SRule where
  temp_expr : Expr
  start_time : ℤ := 0
  end_time : Option ℤ := none
  constraints : List (String × Option (List ℤ)) := []

/-- `schedule.RETROSPECT` (7 days), the default retrospect of a
`Schedule`. -/
def RETROSPECT : ℕ := 7

/-- `schedule.REBUILD_INTERVAL` (1 day). -/
def REBUILD_INTERVAL : ℕ := 1

/-- A slot as built by `Schedule._build_slots`:
`(datetime.combine(day, start_time), datetime.combine(day, end_time) or
None, rule)`, with datetimes in minutes since the epoch. -/
structure Slot where
  start : ℤ
  stop : Option ℤ
  rule : SRule

/-- Insert a slot into a list sorted by start time descending, after every
slot with a strictly later start and before the first slot with an equal
or earlier start. -/
def insertByStartDesc (x : Slot) : List Slot → List Slot
  | [] => [x]
  | y :: ys =>
      if x.start < y.start then y :: insertByStartDesc x ys
      else x :: y :: ys

/-- Stable sort by start time, latest first: the semantics of
`slots.sort(key=lambda slot: slot[0], reverse=True)` (Python's sort is
stable, so slots with equal start keep their build order). -/
def sortByStartDesc : List Slot → List Slot
  | [] => []
  | x :: xs => insertByStartDesc x (sortByStartDesc xs)

/-- The rebuild path of `Schedule._build_slots` (the caching early-return
merely replays a previous rebuild): walk the days from `when.date()` down
to `when.date() - retrospect - REBUILD_INTERVAL` inclusive, emit a slot
for every rule whose constraints hold on that day, then stable-sort the
slots by start time, latest first.  `parts` supplies the calendar
components of each day. -/
def Schedule.build_slots (parts : ℤ → DateParts) (rules : List SRule)
    (when : ℤ) : List Slot :=
  let currentDate := Int.fdiv when 1440
  let days := (List.range (RETROSPECT + REBUILD_INTERVAL + 1)).map
    (fun i => currentDate - (i : ℤ))
  let slots := days.flatMap fun day =>
    rules.filterMap fun r =>
      if Rule.check_constraints r.constraints (parts day) then
        some ⟨day * 1440 + r.start_time,
              (r.end_time).map (fun t => day * 1440 + t), r⟩
      else none
  sortByStartDesc slots

/-- `Schedule.get_slots`: the built slots restricted to those with
`slot[0] <= when` and (`slot[1] is None` or `slot[1] > when`). -/
def Schedule.get_slots (parts : ℤ → DateParts) (rules : List SRule)
    (when : ℤ) : List Slot :=
  (Schedule.build_slots parts rules when).filter fun s =>
    decide (s.start ≤ when) &&
      match s.stop with
      | none => true
      | some e => decide (when < e)

/-- The per-room configuration the app methods read:
`room["schedule"]`'s rules matching at the evaluation time (the
`temp_expr`s `get_scheduled_temp` iterates over), `room["reschedule_delay"]`
in minutes, the room's schedule-switch state, and whether
`get_open_windows` reports any open window. -/
structure RoomCfg where
  matched : List Expr
  reschedule_delay : ℚ
  schedEnabled : Bool
  openWindows : Bool

/-- The mutable state of the `Heaty` app object that the claims touch:
`self.current_temps` (dict, `None` entries possible), the presence of a
room in `self.reschedule_timers`, the master-switch state, the per-room
configuration, and a log of the `set_temp` calls issued (standing in for
the thermostat service calls). -/
structure HState where
  current_temps : String → Option UtilTemp
  reschedule_timers : String → Bool
  masterEnabled : Bool
  cfg : String → RoomCfg
  setTempCalls : List (String × UtilTemp)

/-- `Heaty.cancel_reschedule_timer`: pop the room's entry from
`self.reschedule_timers` (cancelling the timer handle is external). -/
def Heaty.cancel_reschedule_timer (st : HState) (room : String) : HState :=
  { st with reschedule_timers := fun r =>
      if r = room then false else st.reschedule_timers r }

/-- `Heaty.set_temp`: refuse scheduled changes while the master or
schedule switch is off; otherwise record the target in
`self.current_temps` and issue the thermostat service calls (logged as one
entry per call site). -/
def Heaty.set_temp (st : HState) (room : String) (target : UtilTemp)
    (scheduled : Bool) : HState :=
  if scheduled ∧ (¬ st.masterEnabled ∨ ¬ (st.cfg room).schedEnabled) then st
  else
    { st with
      current_temps := fun r =>
        if r = room then some target else st.current_temps r
      setTempCalls := st.setTempCalls ++ [(room, target)] }

/-- `Heaty.set_scheduled_temp`: do nothing when the master or schedule
switch is off, a re-schedule timer is running for the room, or a window is
open; otherwise resolve the schedule and apply the temperature unless it
is unchanged and `force_resend` is not set. -/
def Heaty.set_scheduled_temp (st : HState) (room : String)
    (forceResend : Bool) : HState :=
  if ¬ st.masterEnabled ∨ ¬ (st.cfg room).schedEnabled ∨
      st.reschedule_timers room ∨ (st.cfg room).openWindows then st
  else
    match Heaty.get_scheduled_temp (st.cfg room).matched with
    | none => st
    | some t =>
        if st.current_temps room ≠ some t ∨ forceResend then
          Heaty.set_temp st room t true
        else st

/-- `Heaty.schedule_cb`: when a re-schedule timer is running for the room,
return without scheduling; otherwise apply the scheduled temperature. -/
def Heaty.schedule_cb (st : HState) (room : String) : HState :=
  if st.reschedule_timers room then st
  else Heaty.set_scheduled_temp st room false

/-- `Heaty.update_reschedule_timer`: cancel any existing timer, bail out
when the master or schedule switch is off, cancel again, then arm a new
timer unless the delay is falsy or (`force` unset and) the recorded
temperature equals the schedule's current resolution. -/
def Heaty.update_reschedule_timer (st : HState) (room : String)
    (delayArg : Option ℚ) (force : Bool) : HState :=
  let st1 := Heaty.cancel_reschedule_timer st room
  if ¬ st1.masterEnabled ∨ ¬ (st1.cfg room).schedEnabled then st1
  else
    let st2 := Heaty.cancel_reschedule_timer st1 room
    let delay := delayArg.getD (st2.cfg room).reschedule_delay
    let temp := st2.current_temps room
    if delay = 0 ∨
        (¬ force ∧ temp = Heaty.get_scheduled_temp (st2.cfg room).matched) then
      st2
    else
      { st2 with reschedule_timers := fun r =>
          if r = room then true else st2.reschedule_timers r }

/-! Concrete instances used in the theorems below. -/

/-- The literal rule `temp: 21`: `util.parse_temp` yields `21.0` at
construction and again inside `util.eval_temp_expr`; `eval` would return
the number itself (never reached, since the parsed literal is truthy). -/
def lit21Expr : Expr := ⟨some (.num 21), .ok (.num 21)⟩

/-- The expression `Add(-2)` as app.py evaluates it: `parse_temp` fails
(`None`), and `eval` raises `NameError` because `Add` is not bound in
`util.build_time_expression_env` nor in the `extra_env` that
`Heaty.eval_temp_expr` builds (`IGNORE`, `datetime`, `app`, `now`, `date`,
`time`). -/
def addNeg2Expr : Expr := ⟨none, .error ()⟩

/-- The expression `Break()` in the best case for the claim, an
environment where `expr.Break` is available: `parse_temp` fails (`None`)
and `eval` returns a `Break` instance, an object `float()` rejects.
(In the default environment the name `Break` is unbound and `eval` raises
`NameError` instead; both paths make `Heaty.eval_temp_expr` return
`None`.) -/
def breakObjExpr : Expr := ⟨none, .ok .obj⟩

/-- A rule `start_time=22:00, end_time=06:00` (minutes 1320 and 360), no
constraints.  `Rule.__init__` accepts no `end_plus_days` parameter, so the
offset of 1 day the claim speaks of cannot be recorded anywhere. -/
def overnightRule : SRule :=
  { temp_expr := ⟨some (.num 20), .ok (.num 20)⟩,
    start_time := 1320, end_time := some 360 }

/-- 2018-03-15, a Thursday: `month = 3`, `isocalendar() = (2018, 11, 4)`. -/
def march15_2018 : DateParts := ⟨2018, 3, 15, 2018, 11, 4⟩

/-- 2018-03-17, a Saturday: `isocalendar() = (2018, 11, 6)`. -/
def saturday_2018_03_17 : DateParts := ⟨2018, 3, 17, 2018, 11, 6⟩

/-- 2018-03-13, a Tuesday: `isocalendar() = (2018, 11, 2)`. -/
def tuesday_2018_03_13 : DateParts := ⟨2018, 3, 13, 2018, 11, 2⟩

/-- A concrete app state for the C6 witness: the recorded temperature of
every room is `21.0` and the room schedule resolves to `21.0`;
`reschedule_delay` is 30 minutes and a timer is currently pending. -/
def stC6 : HState :=
  { current_temps := fun _ => some (.num 21)
    reschedule_timers := fun _ => true
    masterEnabled := true
    cfg := fun _ =>
      { matched := [⟨some (.num 21), .ok (.num 21)⟩]
        reschedule_delay := 30
        schedEnabled := true
        openWindows := false }
    setTempCalls := [] }

/-- A concrete app state for the C7 witness: a re-schedule timer is
pending for every room and the schedule would resolve to `19.0`, away
from the recorded `23.0`. -/
def stC7 : HState :=
  { current_temps := fun _ => some (.num 23)
    reschedule_timers := fun _ => true
    masterEnabled := true
    cfg := fun _ =>
      { matched := [⟨some (.num 19), .ok (.num 19)⟩]
        reschedule_delay := 30
        schedEnabled := true
        openWindows := false }
    setTempCalls := [] }

/-! Theorems for the claims. -/

/-- C1: counter to the claim, a rule with `start_time=22:00,
`end_time=06:00` whose constraints are satisfied on every day yields NO
slot at 23:30 of day D (minute 1410 with D = day 0), none at 05:30 of day
D+1 (minute 1770), and none at 06:30 of day D+1 (minute 1830):
`Rule.__init__` accepts no end-plus-days offset and `_build_slots` anchors
`end_time` on the same day as `start_time`, so the 22:00–06:00 interval is
empty.  The statement holds for every assignment of calendar components to
days, since the rule is unconstrained. -/
theorem c1_overnight_rule_yields_no_slots (parts : ℤ → DateParts) :
    Schedule.get_slots parts [overnightRule] 1410 = [] ∧
    Schedule.get_slots parts [overnightRule] 1770 = [] ∧
    Schedule.get_slots parts [overnightRule] 1830 = [] :=
  ⟨rfl, rfl, rfl⟩

/-- C2: `Rule.check_constraints` tests `date.year`, not `date.month`,
against a `"months"` constraint: on 2018-03-15 (month 3) the constraint
`months = {3}` fails even though the month is allowed, while
`months = {2018}` passes because the year is in the set. -/
theorem c2_months_constraint_compares_year :
    march15_2018.month = 3 ∧
    Rule.check_constraints [("months", some [3])] march15_2018 = false ∧
    Rule.check_constraints [("months", some [2018])] march15_2018 = true := by
  decide

/-- C3: with the first rule `Add(-2)` (constraint `weekday ∈ {6,7}`,
satisfied on Saturday 2018-03-17) and the second the literal `21`,
`get_scheduled_temp` returns `21`, not `19`, when both rules match: the
`Add(-2)` expression evaluates to `None` (its `eval` raises, `Add` being
unbound in app.py's evaluation environment) and is skipped, so no additive
merge ever happens.  On a Tuesday, where only the literal matches, the
result is `21` as the claim states. -/
theorem c3_add_rule_is_skipped_not_merged :
    Rule.check_constraints [("weekday", some [6, 7])] saturday_2018_03_17
      = true ∧
    Rule.check_constraints [("weekday", some [6, 7])] tuesday_2018_03_13
      = false ∧
    Heaty.get_scheduled_temp [addNeg2Expr, lit21Expr] = some (.num 21) ∧
    Heaty.get_scheduled_temp [lit21Expr] = some (.num 21) := by
  decide

/-- C4: a rule whose expression produces a `Break` outcome does not stop
the resolution: the `Break` instance is unparseable, so
`util.eval_temp_expr` raises `ValueError`, `Heaty.eval_temp_expr` returns
`None`, and `get_scheduled_temp` continues with the next matching rule and
returns its temperature `21` instead of no decision. -/
theorem c4_break_outcome_is_skipped_not_aborting :
    Heaty.eval_temp_expr breakObjExpr = none ∧
    Heaty.get_scheduled_temp [breakObjExpr, lit21Expr] = some (.num 21) := by
  decide

/-- C5: a dynamic rule whose evaluation raises any exception, or returns a
non-`"ignore"` value that cannot be parsed as a temperature, never fails
the resolution pass: `Heaty.eval_temp_expr` returns `None` and
`get_scheduled_temp` skips the rule and continues the fold with the
remaining matching rules, exactly as for an `Ignore` outcome. -/
theorem c5_eval_errors_are_skipped (e : Expr) (rest : List Expr)
    (hp : e.parsed = none)
    (he : e.evalResult = .error () ∨
      ∃ v, e.evalResult = .ok v ∧ v.isIgnore = false ∧
        util.parse_temp_val v = none) :
    Heaty.eval_temp_expr e = none ∧
    Heaty.get_scheduled_temp (e :: rest) = Heaty.get_scheduled_temp rest := by
  have hnone : Heaty.eval_temp_expr e = none := by
    rcases he with h | ⟨v, hv, hig, hparse⟩
    · simp [Heaty.eval_temp_expr, util.eval_temp_expr, util.eval_dynamic,
        hp, h]
    · simp [Heaty.eval_temp_expr, util.eval_temp_expr, util.eval_dynamic,
        hp, hv, hig, hparse]
  exact ⟨hnone, by simp [Heaty.get_scheduled_temp, hnone]⟩

/-- C5 witness: a rule whose `eval` raises is skipped in favour of the
literal `5` after it. -/
theorem c5_eval_errors_are_skipped_witness :
    Heaty.eval_temp_expr ⟨none, .error ()⟩ = none ∧
    Heaty.get_scheduled_temp
        [⟨none, .error ()⟩, ⟨some (.num 5), .ok (.num 5)⟩]
      = Heaty.get_scheduled_temp [⟨some (.num 5), .ok (.num 5)⟩] :=
  c5_eval_errors_are_skipped ⟨none, .error ()⟩
    [⟨some (.num 5), .ok (.num 5)⟩] rfl (Or.inl rfl)

/-- C6: calling `update_reschedule_timer` without `force` when the
recorded temperature of the room equals the schedule's current resolution
leaves no re-schedule timer armed for the room, whatever delay argument is
passed: the existing entry is popped and the arming branch is never
reached. -/
theorem c6_no_timer_when_schedule_agrees (st : HState) (room : String)
    (delayArg : Option ℚ)
    (h : st.current_temps room
      = Heaty.get_scheduled_temp (st.cfg room).matched) :
    (Heaty.update_reschedule_timer st room delayArg false).reschedule_timers
      room = false := by
  unfold Heaty.update_reschedule_timer Heaty.cancel_reschedule_timer
  dsimp only
  split
  · simp
  · rw [if_pos (Or.inr ⟨by simp, h⟩)]
    simp

/-- C6 witness: in a state whose room records `21.0` with the schedule
also resolving to `21.0`, an unforced `update_reschedule_timer` leaves the
room without a timer (even though one was pending). -/
theorem c6_no_timer_when_schedule_agrees_witness :
    stC6.current_temps "bedroom"
      = Heaty.get_scheduled_temp (stC6.cfg "bedroom").matched ∧
    (Heaty.update_reschedule_timer stC6 "bedroom" none false).reschedule_timers
      "bedroom" = false :=
  ⟨by decide, c6_no_timer_when_schedule_agrees stC6 "bedroom" none (by decide)⟩

/-- C7: while a re-schedule timer is pending for a room, a schedule tick
for that room changes nothing: `schedule_cb` returns the state untouched,
so the room's recorded temperature is unchanged and no `set_temp` call is
issued. -/
theorem c7_tick_suppressed_while_timer_pending (st : HState) (room : String)
    (h : st.reschedule_timers room = true) :
    Heaty.schedule_cb st room = st ∧
    (Heaty.schedule_cb st room).current_temps room
      = st.current_temps room ∧
    (Heaty.schedule_cb st room).setTempCalls = st.setTempCalls := by
  have he : Heaty.schedule_cb st room = st := by
    unfold Heaty.schedule_cb
    rw [h]
    simp
  exact ⟨he, by rw [he], by rw [he]⟩

/-- C7 witness: with a timer pending and the schedule resolving away from
the recorded temperature, a schedule tick still leaves the state (and in
particular the recorded temperature and the call log) unchanged. -/
theorem c7_tick_suppressed_while_timer_pending_witness :
    Heaty.schedule_cb stC7 "livingroom" = stC7 ∧
    (Heaty.schedule_cb stC7 "livingroom").current_temps "livingroom"
      = stC7.current_temps "livingroom" ∧
    (Heaty.schedule_cb stC7 "livingroom").setTempCalls = stC7.setTempCalls :=
  c7_tick_suppressed_while_timer_pending stC7 "livingroom" rfl

/-- C8: `Temp` addition is commutative, `"off"` absorbs on either side,
and on numeric values it adds the floats. -/
theorem c8_temp_add_comm_off_absorbs :
    (∀ a b : TempVal, a.add b = b.add a) ∧
    (∀ x : TempVal, TempVal.off.add x = .off) ∧
    (∀ x : TempVal, x.add .off = .off) ∧
    (∀ a b : ℚ, (TempVal.numeric a).add (.numeric b) = .numeric (a + b)) := by
  refine ⟨?_, ?_, ?_, ?_⟩
  · intro a b
    cases a <;> cases b <;> simp [TempVal.add, TempVal.is_off, add_comm]
  · intro x
    cases x <;> simp [TempVal.add, TempVal.is_off]
  · intro x
    cases x <;> simp [TempVal.add, TempVal.is_off]
  · intro a b
    simp [TempVal.add, TempVal.is_off]

/-- C9 counterexample: the string `" off "` is case-insensitively equal to
`"off"` after removal of all whitespace, yet `util.parse_temp` returns
`None` for it rather than the Off value: its `"off"` test lowercases
without removing whitespace, and the numeric fallback on the stripped
string fails. -/
theorem c9_util_parse_temp_off_with_whitespace_fails :
    pyLower (removeWhitespace " off ") = "off" ∧
    util.parse_temp " off " = none := by
  decide

/-- C9 amended: `expr.Temp.parse_temp` behaves exactly as claimed — Off
for every string case-insensitively equal to `"off"` after whitespace
removal, otherwise a float parse of the whitespace-free string with `None`
on failure.  `util.parse_temp` instead tests `"off"` on the raw lowercased
string (so `" off "` is not Off) and float-parses the stripped string
otherwise. -/
theorem c9_parse_temp_characterised (s : String) :
    (Temp.parse_temp s = some .off ↔ pyLower (removeWhitespace s) = "off") ∧
    (pyLower (removeWhitespace s) ≠ "off" →
      Temp.parse_temp s = (pyFloatOfString (removeWhitespace s)).map
        .numeric) ∧
    (util.parse_temp s = some .off ↔ pyLower s = "off") ∧
    (pyLower s ≠ "off" →
      util.parse_temp s = (pyFloatOfString (pyStrip s)).map .num) := by
  refine ⟨?_, ?_, ?_, ?_⟩
  · by_cases hc : pyLower (removeWhitespace s) = "off"
    · simp [Temp.parse_temp, hc]
    · cases hf : pyFloatOfString (removeWhitespace s) <;>
        simp [Temp.parse_temp, hc, hf]
  · intro hc
    simp [Temp.parse_temp, hc]
  · by_cases hc : pyLower s = "off"
    · simp [util.parse_temp, hc]
    · cases hf : pyFloatOfString (pyStrip s) <;>
        simp [util.parse_temp, hc, hf]
  · intro hc
    simp [util.parse_temp, hc]

/-- C9 witness: `" OFF "` is Off for `Temp.parse_temp`; `"2 1"` goes to
the numeric fallback on `"21"`; `"OFF"` is Off for `util.parse_temp`;
`"banana"` goes to `util.parse_temp`'s numeric fallback. -/
theorem c9_parse_temp_characterised_witness :
    Temp.parse_temp " OFF " = some .off ∧
    Temp.parse_temp "2 1"
      = (pyFloatOfString (removeWhitespace "2 1")).map .numeric ∧
    util.parse_temp "OFF" = some .off ∧
    util.parse_temp "banana" = (pyFloatOfString (pyStrip "banana")).map .num :=
  ⟨(c9_parse_temp_characterised " OFF ").1.mpr (by decide),
   (c9_parse_temp_characterised "2 1").2.1 (by decide),
   (c9_parse_temp_characterised "OFF").2.2.1.mpr (by decide),
   (c9_parse_temp_characterised "banana").2.2.2 (by decide)⟩

/-- C10: `check_constraints` returns `True` whenever every constraint is
`None`-valued or keyed outside `{"years", "months", "days", "week",
"weekday"}`; in particular the plural keys `"weeks"` and `"weekdays"` that
`config.parse_schedule` stores (its `RANGE_STRING_CONSTRAINTS` tuple) are
never examined and restrict nothing. -/
theorem c10_unrecognised_constraint_keys_never_restrict
    (constraints : List (String × Option (List ℤ))) (d : DateParts)
    (h : ∀ c ∈ constraints, c.2 = none ∨
      (c.1 ≠ "years" ∧ c.1 ≠ "months" ∧ c.1 ≠ "days" ∧ c.1 ≠ "week" ∧
        c.1 ≠ "weekday")) :
    Rule.check_constraints constraints d = true := by
  unfold Rule.check_constraints
  rw [List.all_eq_true]
  intro c hc
  rcases h c hc with h1 | ⟨h1, h2, h3, h4, h5⟩
  · simp [h1]
  · cases hcs : c.2 with
    | none => simp
    | some allowed => simp [constraintOk, h1, h2, h3, h4, h5]

/-- C10 witness: a schedule-config constraint set `weekdays = {6,7},
weeks = {1}` (the keys `config.parse_schedule` produces) passes on a
Tuesday outside ISO week 1. -/
theorem c10_unrecognised_constraint_keys_never_restrict_witness :
    Rule.check_constraints
      [("weekdays", some [6, 7]), ("weeks", some [1]),
        ("years", (none : Option (List ℤ)))] tuesday_2018_03_13 = true :=
  c10_unrecognised_constraint_keys_never_restrict _ tuesday_2018_03_13
    (by decide)

end HassHeaty
